import Mathlib

/- A verification development for `app.py`, a single-file Dash dashboard that
overlays fluorescence spectra, synchronises per-case wavelength cursors and
reports Δλ / ΔI delta summaries.

Modelling conventions:
* Python floats (IEEE-754 binary64) are modelled as exact rationals together
  with the explicit rounding map `fl`, which rounds a rational to 53
  significant binary digits with ties to even.  A float operation of the
  program is modelled as the exact rational operation followed by `fl`
  wherever a fresh float is produced.  The exponent is unrestricted (the
  model is exact for all magnitudes in `[2 ^ (-60), 2 ^ 140)`, far beyond
  the 450-700 nm wavelength and percentage intensities the program handles).
* A parsed data file is a list of rows, each row holding the numeric-coercion
  results of its two whitespace-separated fields (`none` models a coercion
  failure, the pandas `NaN`).  The file system is a partial map from path to
  such row lists (`none` models an unreadable resource, i.e. `pd.read_csv`
  raised and `load_spectra` caught).
* A pandas `DataFrame` after `dropna` keeps its original row labels, so it is
  modelled as a list of `(label, nm, percentage)` triples with the label of
  each surviving row equal to its position in the raw file.
* Python exceptions surface as `none` (inside `Option`) or `Except.error`.
-/

set_option maxRecDepth 8000

namespace SpectrumApp

/-! ### IEEE-754 binary64 arithmetic, modelled over the rationals -/

/-- Fuel-driven binary logarithm on naturals (structural so that the kernel
can evaluate it; the fuel bounds the answer). -/
def nlog2 : Nat → Nat → Nat
  | 0, _ => 0
  | fuel + 1, n => if n < 2 then 0 else nlog2 fuel (n / 2) + 1

/-- Integer power of two as a rational. -/
def qpow2 (z : ℤ) : ℚ :=
  if 0 ≤ z then ((2 ^ z.toNat : ℕ) : ℚ) else Rat.divInt 1 ((2 ^ (-z).toNat : ℕ) : ℤ)

/-- Round a rational to the nearest integer with ties to even: the rounding
used by IEEE-754 binary64 arithmetic and by CPython float formatting. -/
def rhe (q : ℚ) : ℤ :=
  if 2 * (q - ⌊q⌋) < 1 then ⌊q⌋
  else if 1 < 2 * (q - ⌊q⌋) then ⌊q⌋ + 1
  else if ⌊q⌋ % 2 = 0 then ⌊q⌋ else ⌊q⌋ + 1

/-- Binary exponent of a positive rational `q`: the unique `e` with
`2 ^ e ≤ q < 2 ^ (e + 1)` (exact whenever `2 ^ (-60) ≤ q < 2 ^ 140`). -/
def flExp (q : ℚ) : ℤ :=
  (nlog2 200 (Int.toNat ⌊q * qpow2 60⌋) : ℤ) - 60

/-- Round a positive rational to 53 significant binary digits, ties to even. -/
def flPos (q : ℚ) : ℚ :=
  (rhe (q * qpow2 (52 - flExp q)) : ℚ) * qpow2 (flExp q - 52)

/-- Round a rational to the IEEE-754 binary64 value nearest to it
(53 significant bits, round half to even, unrestricted exponent). -/
def fl (q : ℚ) : ℚ :=
  if q = 0 then 0 else if q < 0 then -flPos (-q) else flPos q

/-! ### Python string containment -/

/-- Does the character list start with the given pattern? -/
def strStarts : List Char → List Char → Bool
  | [], _ => true
  | _ :: _, [] => false
  | a :: as, b :: bs => a == b && strStarts as bs

/-- Python string containment `sub in s`, on character lists. -/
def strHas (sub : List Char) : List Char → Bool
  | [] => strStarts sub []
  | b :: bs => strStarts sub (b :: bs) || strHas sub bs

/-! ### The case registry (app.py lines 11-37) -/

/-- One entry of the static `cases` dictionary. -/
structure CaseInfo where
  file : String
  color : String
  description : String

/-- The static case registry `cases` (a Python dict, modelled as a partial
map; `cases.get(case_key)` is exactly application of this function). -/
def cases (k : String) : Option CaseInfo :=
  if k = "Blank" then some ⟨"data/t-white-blank.txt", "black", "Blank"⟩
  else if k = "Case 1" then some ⟨"data/t-1white.txt", "red", "10µL FITC-BSA with 290µL water"⟩
  else if k = "Case 2" then some ⟨"data/t-2white.txt", "green", "20µL FITC-BSA with 280µL water"⟩
  else if k = "Case 3" then some ⟨"data/t-3white.txt", "blue", "30µL FITC-BSA with 270µL water"⟩
  else if k = "Case 4" then some ⟨"data/t-4white.txt", "orange", "50µL FITC-BSA with 250µL water"⟩
  else none

/-! ### The spectrum loader (app.py lines 39-47) -/

/-- A raw file row: the numeric-coercion results of its two fields. -/
abbrev Row := Option ℚ × Option ℚ

/-- A loaded `DataFrame`: `(label, nm, percentage)` triples, where the label
of a surviving row is its position in the raw file (pandas `dropna` keeps
the labels of its `RangeIndex`). -/
abbrev DF := List (Nat × ℚ × ℚ)

/-- The file system: path to raw rows, `none` when unreadable. -/
abbrev FileTable := String → Option (List Row)

/-- The `apply(pd.to_numeric, errors='coerce').dropna()` pipeline, started at
row label `i`: rows with a failed coercion in either field are dropped, and
surviving rows keep their original labels. -/
def dropnaAux : Nat → List Row → DF
  | _, [] => []
  | i, (some nm, some pct) :: rest => (i, nm, pct) :: dropnaAux (i + 1) rest
  | i, (_, _) :: rest => dropnaAux (i + 1) rest

/-- Numeric coercion and NaN-dropping of a whole raw file (labels start at 0,
pandas `RangeIndex`). -/
def dropna_enum (rows : List Row) : DF := dropnaAux 0 rows

/-- A raw row survives the pipeline iff both fields coerced. -/
def goodRow (r : Row) : Bool := r.1.isSome && r.2.isSome

/-- The function `load_spectra` (app.py lines 39-47): read the resource, then
coerce and drop; any read exception is caught and surfaces as `none`. -/
def load_spectra (fs : FileTable) (file_path : String) : Option DF :=
  (fs file_path).map dropna_enum

/-! ### Nearest-sample resolution (app.py lines 169-172) -/

/-- The scan behind `(data['nm'] - cursor).abs().idxmin()`: current best
label and best distance against the remaining rows; a strictly smaller
distance is required to displace the incumbent, so the first minimum wins.
Each per-row distance is the float `abs(nm - cursor)`. -/
def idxminAux (w : ℚ) : DF → Nat → ℚ → Nat
  | [], best, _ => best
  | r :: rest, best, bestDist =>
    let d := |fl (r.2.1 - w)|
    if d < bestDist then idxminAux w rest r.1 d else idxminAux w rest best bestDist

/-- Pandas `(data['nm'] - cursor).abs().idxmin()`: the index label of the
first row attaining the minimal distance (raises on an empty frame). -/
def idxmin (df : DF) (w : ℚ) : Option Nat :=
  match df with
  | [] => none
  | r :: rest => some (idxminAux w rest r.1 (|fl (r.2.1 - w)|))

/-- Pandas `data.iloc[i]`: strictly positional row access, `none` models the
`IndexError` on an out-of-range position. -/
def iloc (df : DF) (i : Nat) : Option (Nat × ℚ × ℚ) := df.get? i

/-- The code's cursor-intensity computation (app.py lines 169-172):
`idx = (data['nm'] - cursor).abs().idxmin(); data.iloc[idx]['percentage']`.
Note that `idxmin` yields an index label while `iloc` is positional. -/
def resolve (df : DF) (w : ℚ) : Option ℚ :=
  match idxmin df w with
  | none => none
  | some lbl =>
    match iloc df lbl with
    | none => none
    | some r => some r.2.2

/-- The nearest-sample resolver as the specification words it (spec section
4.3): scan the samples, return the intensity of the first sample minimizing
the distance `|sample.wavelength - w|`.  Stated over the same `DF` type so it
can be compared with `resolve`. -/
def resolveSpecAux (w : ℚ) : DF → ℚ → ℚ → ℚ
  | [], _, bestIntensity => bestIntensity
  | r :: rest, bestDist, bestIntensity =>
    let d := |r.2.1 - w|
    if d < bestDist then resolveSpecAux w rest d r.2.2
    else resolveSpecAux w rest bestDist bestIntensity

/-- Intensity of the first sample minimizing `|sample.wavelength - w|`
(defined for non-empty spectra, per spec section 4.3). -/
def resolveSpec (df : DF) (w : ℚ) : Option ℚ :=
  match df with
  | [] => none
  | r :: rest => some (resolveSpecAux w rest (|r.2.1 - w|) r.2.2)

/-! ### Float formatting (Python `f"{x:.2f}"`) -/

/-- Two-digit zero-padded fragment for the fractional part. -/
def pad2 (n : Nat) : String := if n < 10 then "0" ++ Nat.repr n else Nat.repr n

/-- CPython `f"{x:.2f}"` for a non-negative float value: correctly rounded
decimal output with ties to even on the exact binary value. -/
def format2fNonneg (q : ℚ) : String :=
  let n := (rhe (q * 100)).toNat
  Nat.repr (n / 100) ++ "." ++ pad2 (n % 100)

/-- CPython `f"{x:.2f}"`. -/
def format2f (q : ℚ) : String :=
  if q < 0 then "-" ++ format2fNonneg (-q) else format2fNonneg q

/-- The delta-summary f-string of app.py line 199, for float cursor values
and resolved intensities; the two subtractions are float subtractions. -/
def diff_output (cursor1 cursor2 i1 i2 : ℚ) : String :=
  "Δλ = " ++ format2f (|fl (cursor2 - cursor1)|) ++ " nm, ΔI = "
    ++ format2f (|fl (i2 - i1)|) ++ "%"

/-! ### The cursor-synchronisation callback (app.py lines 107-126) -/

/-- Callback `sync_inputs` (app.py lines 114-126).  `trigger_id` is
`ctx.triggered[0]['prop_id']` when a trigger exists and `none` otherwise;
`click_data` is the clicked x-coordinate when a click payload is present.
`Except.error ()` models the `TypeError` raised by evaluating `'…' in None`
(absent trigger) or by subscripting an absent click payload. -/
def sync_inputs (slider_values input_values : List ℚ) (click_data : Option ℚ)
    (trigger_id : Option String) : Except Unit (List ℚ × List ℚ) :=
  match trigger_id with
  | none => Except.error ()
  | some t =>
    if strHas "spectra-plot.clickData".data t.data then
      match click_data with
      | none => Except.error ()
      | some clicked_wavelength =>
        let updated_values := List.replicate slider_values.length clicked_wavelength
        Except.ok (updated_values, updated_values)
    else
      let updated_values :=
        if strHas "cursor-input".data t.data then input_values else slider_values
      Except.ok (updated_values, updated_values)

/-! ### The plot composer (app.py lines 128-210) -/

/-- Pandas `series.max()` over the intensity column (only ever applied to a
non-empty frame). -/
def seriesMax : List ℚ → ℚ
  | [] => 0
  | a :: rest => rest.foldl max a

/-- Everything `update_plot` emits for one rendered case: the curve trace
(lines 156-162), the two dashed cursor shapes and their wavelength
annotations (lines 175-196), and the delta summary (line 199). -/
structure Rendered where
  x : List ℚ
  y : List ℚ
  color : String
  name : String
  cursor1 : ℚ
  cursor2 : ℚ
  ymax : ℚ
  label1 : String
  label2 : String
  diff : String

/-- The first loop of `update_plot` (lines 139-144), which fills
`cursor_map` from the flat slider-value list: the case at enumeration
position `i` is assigned the values at flat positions `2*i` and `2*i + 1`.
An out-of-range access is a Python `IndexError` (`none`); a repeated key is
overwritten, as in a Python dict. -/
def buildCursorMapAux (slider_values : List ℚ) :
    Nat → List String → (String → Option (ℚ × ℚ)) → Option (String → Option (ℚ × ℚ))
  | _, [], m => some m
  | i, case_key :: rest, m =>
    match slider_values.get? (2 * i), slider_values.get? (2 * i + 1) with
    | some v1, some v2 =>
        buildCursorMapAux slider_values (i + 1) rest
          (fun k => if k = case_key then some (v1, v2) else m k)
    | _, _ => none

/-- `cursor_map` after the first loop of `update_plot` (lines 137-144). -/
def buildCursorMap (selected_cases : List String) (slider_values : List ℚ) :
    Option (String → Option (ℚ × ℚ)) :=
  buildCursorMapAux slider_values 0 selected_cases (fun _ => none)

/-- One iteration of the render loop of `update_plot` (lines 146-200) for
`case_key`: `some none` means the iteration contributed nothing (`continue`
for an unregistered case, an unreadable file, or an empty frame); `none`
means the iteration raised (missing cursor-map key, or `IndexError` from the
positional `iloc` lookup); `some (some r)` is a rendered case. -/
def renderCase (fs : FileTable) (cm : String → Option (ℚ × ℚ)) (case_key : String) :
    Option (Option Rendered) :=
  match cases case_key with
  | none => some none
  | some c =>
    match load_spectra fs c.file with
    | none => some none
    | some data =>
      match data with
      | [] => some none
      | _ :: _ =>
        match cm case_key with
        | none => none
        | some (cursor1, cursor2) =>
          match resolve data cursor1, resolve data cursor2 with
          | some i1, some i2 =>
            some (some
              { x := data.map (fun r => r.2.1)
                y := data.map (fun r => r.2.2)
                color := c.color
                name := c.description
                cursor1 := cursor1
                cursor2 := cursor2
                ymax := seriesMax (data.map (fun r => r.2.2))
                label1 := format2f cursor1 ++ " nm"
                label2 := format2f cursor2 ++ " nm"
                diff := diff_output cursor1 cursor2 i1 i2 })
          | _, _ => none

/-- The render loop of `update_plot` (lines 146-200), in selection order:
collects the figure traces and the `diff_outputs` list; a raised iteration
aborts the whole callback. -/
def renderCases (fs : FileTable) (cm : String → Option (ℚ × ℚ)) :
    List String → Option (List Rendered × List String)
  | [] => some ([], [])
  | case_key :: rest =>
    match renderCase fs cm case_key, renderCases fs cm rest with
    | some r, some (figs, diffs) =>
      match r with
      | none => some (figs, diffs)
      | some rc => some (rc :: figs, rc.diff :: diffs)
    | _, _ => none

/-- Callback `update_plot` (app.py lines 134-210): build `cursor_map`, then
render each selected case; the result is the list of curve traces of the
figure together with the `diff_outputs` sequence.  `none` models an
uncaught exception escaping the callback. -/
def update_plot (fs : FileTable) (slider_values : List ℚ)
    (selected_cases : List String) : Option (List Rendered × List String) :=
  match buildCursorMap selected_cases slider_values with
  | none => none
  | some cursor_map => renderCases fs cursor_map selected_cases

/-! ### Concrete scenario inputs -/

/-- File table for the delta-summary scenario: the Blank source holds the
samples `(462.7, 12.345)` and `(560, 8)` (as the floats the parser would
produce). -/
def demoTable : FileTable := fun p =>
  if p = "data/t-white-blank.txt" then
    some [(some (fl (4627/10)), some (fl (12345/1000))), (some 560, some 8)]
  else none

/-- File table whose Blank source starts with a non-numeric row (for example
a header line), followed by two numeric samples: after `dropna` the
surviving rows keep labels 1 and 2. -/
def headerTable : FileTable := fun p =>
  if p = "data/t-white-blank.txt" then
    some [(none, none), (some 450, some 10), (some 700, some 5)]
  else none

/-! ### Claim C2 -/

/-- Claim C2: after any single execution of `sync_inputs` that returns, the
slider-value sequence and the numeric-entry value sequence it emits are
element-wise equal, for every trigger and any prior values. -/
theorem sync_outputs_elementwise_equal (slider_values input_values : List ℚ)
    (click_data : Option ℚ) (trigger_id : Option String)
    (out : List ℚ × List ℚ)
    (h : sync_inputs slider_values input_values click_data trigger_id
          = Except.ok out) :
    out.1 = out.2 := by
  cases trigger_id with
  | none => simp [sync_inputs] at h
  | some t =>
    cases hc : strHas "spectra-plot.clickData".data t.data with
    | true =>
      cases click_data with
      | none => simp [sync_inputs, hc] at h
      | some w => simp [sync_inputs, hc] at h; rw [← h]
    | false => simp [sync_inputs, hc] at h; rw [← h]

/-- Witness for C2 at a concrete slider-triggered execution. -/
theorem sync_outputs_elementwise_equal_witness :
    ((([3, 4] : List ℚ), ([3, 4] : List ℚ)).1 : List ℚ)
      = ((([3, 4] : List ℚ), ([3, 4] : List ℚ)).2 : List ℚ) :=
  sync_outputs_elementwise_equal [3, 4] [5, 6] none (some "x.value")
    ([3, 4], [3, 4]) (by rfl)

/-! ### Claim C3 -/

/-- Claim C3: a chart click at wavelength `w` with `k` active cursors makes
`sync_inputs` return the length-`k` all-`w` sequence for both
representations, whatever the prior values were. -/
theorem chart_click_broadcast (slider_values input_values : List ℚ) (w : ℚ)
    (t : String) (k : Nat)
    (hsv : slider_values.length = k) (_hiv : input_values.length = k)
    (ht : strHas "spectra-plot.clickData".data t.data = true) :
    sync_inputs slider_values input_values (some w) (some t)
      = Except.ok (List.replicate k w, List.replicate k w) := by
  simp [sync_inputs, ht, hsv]

/-- Witness for C3 at a concrete click. -/
theorem chart_click_broadcast_witness :
    sync_inputs [1, 2] [3, 4] (some 500) (some "spectra-plot.clickData")
      = Except.ok (List.replicate 2 500, List.replicate 2 500) :=
  chart_click_broadcast [1, 2] [3, 4] 500 "spectra-plot.clickData" 2
    rfl rfl (by rfl)

/-! ### Claim C7 -/

/-- Claim C7: for a non-click trigger, the numeric-entry values are returned
for both representations when the trigger mentions `cursor-input`, and the
slider values are returned for both representations otherwise (the
default/fallback branch). -/
theorem non_click_trigger_authority (slider_values input_values : List ℚ)
    (click_data : Option ℚ) (t : String)
    (ht : strHas "spectra-plot.clickData".data t.data = false) :
    sync_inputs slider_values input_values click_data (some t)
      = Except.ok
          (if strHas "cursor-input".data t.data then input_values else slider_values,
           if strHas "cursor-input".data t.data then input_values else slider_values) := by
  simp [sync_inputs, ht]

/-- Witness for C7 at a concrete slider trigger. -/
theorem non_click_trigger_authority_witness :
    sync_inputs [1] [2] none (some "cursor-slider.value")
      = Except.ok ([1], [1]) :=
  non_click_trigger_authority [1] [2] none "cursor-slider.value" (by rfl)

/-! ### Claim C9 -/

/-- Claim C9: when no trigger is recorded in the callback context,
`sync_inputs` raises a `TypeError` from the membership test on the absent
trigger identifier instead of reaching the slider fallback branch. -/
theorem missing_trigger_type_error (slider_values input_values : List ℚ)
    (click_data : Option ℚ) :
    sync_inputs slider_values input_values click_data none
      = Except.error () := rfl

/-! ### Claim C4 -/

@[simp] lemma goodRow_some_some (x y : ℚ) : goodRow (some x, some y) = true := rfl

@[simp] lemma goodRow_none_left (b : Option ℚ) : goodRow (none, b) = false := rfl

@[simp] lemma goodRow_none_right (a : Option ℚ) : goodRow (a, none) = false := by
  cases a <;> rfl

lemma dropnaAux_length_add (rows : List Row) : ∀ i : Nat,
    (dropnaAux i rows).length + rows.countP (fun r => !goodRow r)
      = rows.length := by
  induction rows with
  | nil => intro i; rfl
  | cons r rest ih =>
    intro i
    obtain ⟨a, b⟩ := r
    have := ih (i + 1)
    cases a <;> cases b <;> simp [dropnaAux, List.countP_cons] <;> omega

lemma dropnaAux_length (rows : List Row) : ∀ i : Nat,
    (dropnaAux i rows).length
      = rows.length - rows.countP (fun r => !goodRow r) := by
  intro i
  have := dropnaAux_length_add rows i
  omega

lemma dropnaAux_values (rows : List Row) : ∀ i : Nat,
    (dropnaAux i rows).map (fun e => (e.2.1, e.2.2))
      = rows.filterMap (fun r =>
          match r with
          | (some nm, some pct) => some (nm, pct)
          | _ => none) := by
  induction rows with
  | nil => intro i; rfl
  | cons r rest ih =>
    intro i
    obtain ⟨a, b⟩ := r
    cases a <;> cases b <;> simp [dropnaAux, ih (i + 1)]

lemma dropnaAux_label_ge (rows : List Row) : ∀ (i : Nat) (e : Nat × ℚ × ℚ),
    e ∈ dropnaAux i rows → i ≤ e.1 := by
  induction rows with
  | nil => intro i e he; simp [dropnaAux] at he
  | cons r rest ih =>
    intro i e he
    obtain ⟨a, b⟩ := r
    cases a <;> cases b <;> simp only [dropnaAux] at he
    case none.none => exact Nat.le_of_succ_le (ih (i + 1) e he)
    case none.some => exact Nat.le_of_succ_le (ih (i + 1) e he)
    case some.none => exact Nat.le_of_succ_le (ih (i + 1) e he)
    case some.some =>
      rcases List.mem_cons.1 he with h | h
      · subst h; exact Nat.le_refl i
      · exact Nat.le_of_succ_le (ih (i + 1) e h)

lemma dropnaAux_sorted (rows : List Row) : ∀ i : Nat,
    (dropnaAux i rows).Pairwise (fun e₁ e₂ => e₁.1 < e₂.1) := by
  induction rows with
  | nil => intro i; simp [dropnaAux]
  | cons r rest ih =>
    intro i
    obtain ⟨a, b⟩ := r
    cases a <;> cases b <;> simp only [dropnaAux]
    case none.none => exact ih (i + 1)
    case none.some => exact ih (i + 1)
    case some.none => exact ih (i + 1)
    case some.some =>
      refine List.Pairwise.cons ?_ (ih (i + 1))
      intro e he
      exact Nat.lt_of_succ_le (dropnaAux_label_ge rest (i + 1) e he)

lemma dropnaAux_source (rows : List Row) : ∀ (i : Nat) (e : Nat × ℚ × ℚ),
    e ∈ dropnaAux i rows →
    rows.get? (e.1 - i) = some (some e.2.1, some e.2.2) := by
  induction rows with
  | nil => intro i e he; simp [dropnaAux] at he
  | cons r rest ih =>
    intro i e he
    obtain ⟨a, b⟩ := r
    have step : e ∈ dropnaAux (i + 1) rest →
        ((a, b) :: rest).get? (e.1 - i) = some (some e.2.1, some e.2.2) := by
      intro h
      have hge := dropnaAux_label_ge rest (i + 1) e h
      have harith : e.1 - i = (e.1 - (i + 1)) + 1 := by omega
      rw [harith]
      simpa using ih (i + 1) e h
    cases a <;> cases b <;> simp only [dropnaAux] at he
    case none.none => exact step he
    case none.some => exact step he
    case some.none => exact step he
    case some.some =>
      rcases List.mem_cons.1 he with h | h
      · subst h; simp
      · exact step h

/-- Claim C4: on any non-empty parsed two-column input, the loader keeps
exactly the rows whose two fields both coerced (count accounting), each
surviving row's values come verbatim from the input row at its label (rows
are dropped, never defaulted), and the surviving rows appear in their
original relative order (labels strictly increase along the output). -/
theorem loader_row_accounting (rows : List Row) (_hne : rows ≠ []) :
    (dropna_enum rows).length
        = rows.length - rows.countP (fun r => !goodRow r) ∧
    (dropna_enum rows).map (fun e => (e.2.1, e.2.2))
        = rows.filterMap (fun r =>
            match r with
            | (some nm, some pct) => some (nm, pct)
            | _ => none) ∧
    (dropna_enum rows).Pairwise (fun e₁ e₂ => e₁.1 < e₂.1) ∧
    ∀ e ∈ dropna_enum rows, rows.get? e.1 = some (some e.2.1, some e.2.2) := by
  refine ⟨dropnaAux_length rows 0, dropnaAux_values rows 0,
    dropnaAux_sorted rows 0, ?_⟩
  intro e he
  simpa using dropnaAux_source rows 0 e he

/-- Witness for C4 on a three-row input whose middle row fails coercion. -/
theorem loader_row_accounting_witness :
    (dropna_enum [(some 1, some 2), (none, some 3), (some 4, some 5)]).length
      = ([(some 1, some 2), (none, some 3), (some 4, some 5)] : List Row).length
        - ([(some 1, some 2), (none, some 3), (some 4, some 5)] : List Row).countP
            (fun r => !goodRow r) :=
  (loader_row_accounting [(some 1, some 2), (none, some 3), (some 4, some 5)]
    (by simp)).1

/-! ### Claim C8 -/

lemma buildCursorMapAux_spec (vals : List ℚ) :
    ∀ (sel : List String) (i : Nat) (m : String → Option (ℚ × ℚ)),
    sel.Nodup →
    ∀ hlen : 2 * (i + sel.length) ≤ vals.length,
    ∃ m', buildCursorMapAux vals i sel m = some m' ∧
      (∀ k, k ∉ sel → m' k = m k) ∧
      ∀ j (hj : j < sel.length),
        m' (sel.get ⟨j, hj⟩)
          = some (vals.get ⟨2 * (i + j), by omega⟩,
                  vals.get ⟨2 * (i + j) + 1, by omega⟩) := by
  intro sel
  induction sel with
  | nil =>
    intro i m _ hlen
    exact ⟨m, rfl, fun k _ => rfl, fun j hj => absurd hj (by simp)⟩
  | cons k0 rest ih =>
    intro i m hnd hlen
    have h2 : 2 * i + 1 < vals.length := by
      simp only [List.length_cons] at hlen; omega
    have h1 : 2 * i < vals.length := by omega
    have hv1 : vals.get? (2 * i) = some (vals.get ⟨2 * i, h1⟩) :=
      List.get?_eq_get h1
    have hv2 : vals.get? (2 * i + 1) = some (vals.get ⟨2 * i + 1, h2⟩) :=
      List.get?_eq_get h2
    have hk0 : k0 ∉ rest := (List.nodup_cons.1 hnd).1
    have hnd' : rest.Nodup := (List.nodup_cons.1 hnd).2
    have hlen' : 2 * ((i + 1) + rest.length) ≤ vals.length := by
      simp only [List.length_cons] at hlen; omega
    obtain ⟨m', hm', hframe, hget⟩ :=
      ih (i + 1)
        (fun k => if k = k0 then some (vals.get ⟨2 * i, h1⟩, vals.get ⟨2 * i + 1, h2⟩)
                  else m k)
        hnd' hlen'
    refine ⟨m', ?_, ?_, ?_⟩
    · rw [buildCursorMapAux, hv1, hv2]
      exact hm'
    · intro k hk
      have hkr : k ∉ rest := fun h => hk (List.mem_cons_of_mem _ h)
      have hkk0 : ¬k = k0 := fun h => hk (h ▸ List.mem_cons_self _ _)
      rw [hframe k hkr, if_neg hkk0]
    · intro j hj
      cases j with
      | zero =>
        have : m' k0
            = some (vals.get ⟨2 * i, h1⟩, vals.get ⟨2 * i + 1, h2⟩) := by
          rw [hframe k0 hk0, if_pos rfl]
        simpa using this
      | succ j =>
        have hj' : j < rest.length := by
          simp only [List.length_cons] at hj; omega
        have := hget j hj'
        have harith : 2 * ((i + 1) + j) = 2 * (i + (j + 1)) := by omega
        simpa [harith] using this

/-- Claim C8: with a duplicate-free selection and a flat cursor-value list of
length twice the selection, the composer's `cursor_map` assigns to the case
at position `i` of the selection the values at flat positions `2*i` and
`2*i + 1`. -/
theorem cursor_positional_mapping (selected : List String) (vals : List ℚ)
    (hnd : selected.Nodup) (hlen : vals.length = 2 * selected.length)
    (i : Nat) (hi : i < selected.length) :
    (buildCursorMap selected vals).bind
        (fun cm => cm (selected.get ⟨i, hi⟩))
      = some (vals.get ⟨2 * i, by omega⟩, vals.get ⟨2 * i + 1, by omega⟩) := by
  obtain ⟨m', hm, _, hget⟩ :=
    buildCursorMapAux_spec vals selected 0 (fun _ => none) hnd (by omega)
  rw [buildCursorMap, hm]
  simpa using hget i hi

/-- Witness for C8 with two selected cases and four flat cursor values. -/
theorem cursor_positional_mapping_witness :
    (buildCursorMap ["A", "B"] [1, 2, 3, 4]).bind
        (fun cm => cm ((["A", "B"] : List String).get ⟨1, by decide⟩))
      = some (([1, 2, 3, 4] : List ℚ).get ⟨2, by decide⟩,
              ([1, 2, 3, 4] : List ℚ).get ⟨3, by decide⟩) :=
  cursor_positional_mapping ["A", "B"] [1, 2, 3, 4] (by decide) rfl 1 (by decide)

/-! ### Claims C5 and C10 -/

lemma renderCase_skip_unregistered (fs : FileTable)
    (cm : String → Option (ℚ × ℚ)) (k : String) (h : cases k = none) :
    renderCase fs cm k = some none := by
  simp [renderCase, h]

lemma renderCase_skip_unavailable (fs : FileTable)
    (cm : String → Option (ℚ × ℚ)) (k : String) (c : CaseInfo)
    (hk : cases k = some c)
    (h : load_spectra fs c.file = none ∨ load_spectra fs c.file = some []) :
    renderCase fs cm k = some none := by
  rcases h with h | h <;> simp [renderCase, hk, h]

lemma renderCases_skip (fs : FileTable) (cm : String → Option (ℚ × ℚ))
    (k : String) (rest : List String) (h : renderCase fs cm k = some none) :
    renderCases fs cm (k :: rest) = renderCases fs cm rest := by
  simp only [renderCases, h]
  cases hr : renderCases fs cm rest with
  | none => rfl
  | some p => cases p; rfl

lemma renderCases_lengths (fs : FileTable) (cm : String → Option (ℚ × ℚ)) :
    ∀ (sel : List String) (figs : List Rendered) (diffs : List String),
    renderCases fs cm sel = some (figs, diffs) → figs.length = diffs.length := by
  intro sel
  induction sel with
  | nil =>
    intro figs diffs h
    simp only [renderCases, Option.some.injEq, Prod.mk.injEq] at h
    obtain ⟨rfl, rfl⟩ := h
    rfl
  | cons k rest ih =>
    intro figs diffs h
    cases hcr : renderCase fs cm k with
    | none => simp [renderCases, hcr] at h
    | some r =>
      cases hrest : renderCases fs cm rest with
      | none => simp [renderCases, hcr, hrest] at h
      | some p =>
        obtain ⟨figs2, diffs2⟩ := p
        cases r with
        | none =>
          simp only [renderCases, hcr, hrest, Option.some.injEq,
            Prod.mk.injEq] at h
          obtain ⟨rfl, rfl⟩ := h
          exact ih figs2 diffs2 hrest
        | some rc =>
          simp only [renderCases, hcr, hrest, Option.some.injEq,
            Prod.mk.injEq] at h
          obtain ⟨rfl, rfl⟩ := h
          simp [ih figs2 diffs2 hrest]

lemma renderCases_filter_registered (fs : FileTable)
    (cm : String → Option (ℚ × ℚ)) :
    ∀ sel : List String,
    renderCases fs cm sel
      = renderCases fs cm (sel.filter (fun k => (cases k).isSome)) := by
  intro sel
  induction sel with
  | nil => rfl
  | cons k rest ih =>
    cases hk : cases k with
    | none =>
      have hskip :=
        renderCases_skip fs cm k rest (renderCase_skip_unregistered fs cm k hk)
      rw [List.filter_cons]
      simp [hk, hskip, ih]
    | some c =>
      rw [List.filter_cons]
      simp only [hk, Option.isSome_some, if_true]
      simp only [renderCases]
      rw [ih]

/-- Claim C5: a registered case whose spectrum is unavailable (unreadable
source, or empty after dropping bad rows) is skipped without error and
contributes neither a curve nor a delta entry; whenever `update_plot`
returns, the delta-summary sequence has exactly one entry per rendered
curve; and in the Blank-unreadable scenario the callback returns zero curves
and an empty delta sequence. -/
theorem unavailable_case_contributes_nothing :
    (∀ (fs : FileTable) (cm : String → Option (ℚ × ℚ)) (k : String)
        (c : CaseInfo), cases k = some c →
        load_spectra fs c.file = none ∨ load_spectra fs c.file = some [] →
        renderCase fs cm k = some none) ∧
    (∀ (fs : FileTable) (vals : List ℚ) (selected : List String)
        (out : List Rendered × List String),
        update_plot fs vals selected = some out →
        out.1.length = out.2.length) ∧
    (∀ (fs : FileTable) (v1 v2 : ℚ), fs "data/t-white-blank.txt" = none →
        update_plot fs [v1, v2] ["Blank"] = some ([], [])) := by
  refine ⟨renderCase_skip_unavailable, ?_, ?_⟩
  · intro fs vals selected out h
    rw [update_plot] at h
    cases hb : buildCursorMap selected vals with
    | none => rw [hb] at h; exact absurd h (by simp)
    | some cm =>
      rw [hb] at h
      obtain ⟨figs, diffs⟩ := out
      exact renderCases_lengths fs cm selected figs diffs h
  · intro fs v1 v2 h
    have hload : load_spectra fs "data/t-white-blank.txt" = none := by
      rw [load_spectra, h]; rfl
    have hbuild : buildCursorMap ["Blank"] [v1, v2]
        = some (fun k => if k = "Blank" then some (v1, v2) else none) := rfl
    have hskip : renderCase fs
        (fun k => if k = "Blank" then some (v1, v2) else none) "Blank"
          = some none :=
      renderCase_skip_unavailable fs _ "Blank" _ rfl (Or.inl hload)
    simp only [update_plot, hbuild]
    rw [renderCases_skip fs _ "Blank" [] hskip]
    rfl

/-- Witness for C5: the end-to-end Blank scenario with an unreadable file
table. -/
theorem unavailable_case_contributes_nothing_witness :
    update_plot (fun _ => none) [4627/10, 560] ["Blank"] = some ([], []) :=
  unavailable_case_contributes_nothing.2.2 (fun _ => none) (4627/10) 560 rfl

/-- Claim C10: a selected identifier that is not a key of the static case
registry is skipped silently (no curve, no delta entry, no error), and the
render loop behaves exactly as if the selection were filtered down to its
registered identifiers, which are processed in order. -/
theorem unregistered_case_skipped :
    (∀ (fs : FileTable) (cm : String → Option (ℚ × ℚ)) (k : String),
        cases k = none → renderCase fs cm k = some none) ∧
    (∀ (fs : FileTable) (cm : String → Option (ℚ × ℚ))
        (selected : List String),
        renderCases fs cm selected
          = renderCases fs cm
              (selected.filter (fun k => (cases k).isSome))) :=
  ⟨renderCase_skip_unregistered, renderCases_filter_registered⟩

/-- Witness for C10 at a concrete unregistered identifier. -/
theorem unregistered_case_skipped_witness :
    renderCase (fun _ => none) (fun _ => none) "Unknown" = some none :=
  unregistered_case_skipped.1 (fun _ => none) (fun _ => none) "Unknown" rfl

/-! ### Claim C1 -/

/-- Claim C1 (code bug): the composer's cursor-intensity computation feeds
the index label returned by `idxmin` to the positional `iloc`.  On a file
whose first row fails numeric coercion the surviving labels are 1 and 2;
at cursor 450 the code then returns intensity 5 although the nearest sample
is `(450, 10)` (the spec resolver returns 10), and at cursor 700 `iloc`
raises `IndexError`, so the whole `update_plot` callback raises. -/
theorem resolve_mismatches_nearest_sample :
    dropna_enum [(none, none), (some 450, some 10), (some 700, some 5)]
        = [(1, 450, 10), (2, 700, 5)] ∧
    resolve [(1, 450, 10), (2, 700, 5)] 450 = some 5 ∧
    resolveSpec [(1, 450, 10), (2, 700, 5)] 450 = some 10 ∧
    resolve [(1, 450, 10), (2, 700, 5)] 700 = none ∧
    resolveSpec [(1, 450, 10), (2, 700, 5)] 700 = some 5 ∧
    update_plot headerTable [700, 700] ["Blank"] = none := by
  refine ⟨?_, ?_, ?_, ?_, ?_, ?_⟩ <;> with_unfolding_all rfl

/-! ### Claim C6 -/

/-- Claim C6: with cursor values 462.70 and 560.00 (as floats) and resolved
intensities 12.345 and 8.0, the delta summary produced by the composer is
exactly the string `Δλ = 97.30 nm, ΔI = 4.35%`. -/
theorem delta_summary_formatting :
    resolve [(0, fl (4627/10), fl (12345/1000)), (1, 560, 8)] (fl (4627/10))
        = some (fl (12345/1000)) ∧
    resolve [(0, fl (4627/10), fl (12345/1000)), (1, 560, 8)] 560 = some 8 ∧
    (update_plot demoTable [fl (4627/10), 560] ["Blank"]).map Prod.snd
        = some ["Δλ = 97.30 nm, ΔI = 4.35%"] := by
  refine ⟨?_, ?_, ?_⟩ <;> with_unfolding_all rfl

end SpectrumApp
